import Mathlib

/-!
Verification of the LucidAd analyze route and its Zod result schema
(`lib/schema.ts` / `app/api/analyze/route.ts`).

The embedding models JSON values, the Zod validator `factCheckZ`
(field-by-field, collecting issues across fields the way Zod's object
parser does), the JSON serialization of a validated result, and the
request handler `POST` with the external inference call abstracted as
an upstream outcome.
-/

namespace LucidAd

/-- JSON values as produced by `JSON.parse` / `req.json()`.  Numbers are
modelled as rationals (every JSON numeric literal is a rational; the
Zod `.int()` check is then denominator = 1). -/
inductive Json where
  | null
  | bool (b : Bool)
  | num (q : Rat)
  | str (s : String)
  | arr (elems : List Json)
  | obj (fields : List (String × Json))

/-- Property lookup on a JS object built from a key/value list; a later
duplicate key overwrites an earlier one, as in `JSON.parse`. -/
def lookupKey : List (String × Json) → String → Option Json
  | [], _ => none
  | (k, v) :: rest, key =>
    match lookupKey rest key with
    | some w => some w
    | none => if k = key then some v else none

/-- Character-list version of JS `String.prototype.startsWith`. -/
def listLeads : List Char → List Char → Bool
  | [], _ => true
  | _, [] => false
  | c :: cs, d :: ds => (c == d) && listLeads cs ds

/-- JS `s.startsWith(p)`. -/
def strStartsWith (s p : String) : Bool :=
  listLeads p.toList s.toList

/-- One Zod validation issue: a path into the candidate and a message. -/
structure ZIssue where
  path : List String
  message : String
deriving Repr, DecidableEq

/-- The issues of a validation outcome (empty when it succeeded). -/
def issuesOf {α : Type} : Except (List ZIssue) α → List ZIssue
  | .ok _ => []
  | .error e => e

/-- Whether a validation outcome succeeded. -/
def isOkE {α : Type} : Except (List ZIssue) α → Bool
  | .ok _ => true
  | .error _ => false

/-- Issue-collecting applicative combination, the way Zod's object and
array parsers accumulate issues across all keys/elements instead of
stopping at the first failure. -/
def zapp {α β : Type} (f : Except (List ZIssue) (α → β))
    (x : Except (List ZIssue) α) : Except (List ZIssue) β :=
  match f with
  | .error e => .error (e ++ issuesOf x)
  | .ok g =>
    match x with
    | .ok a => .ok (g a)
    | .error e => .error e

/-- `{ title?: string | null, url: string }` — output of `sourceZ`.
`title = none` models the key being absent, `some none` models `null`. -/
structure SourceLink where
  title : Option (Option String)
  url : String
deriving Repr, DecidableEq

/-- Output of `factCheckZ` (= the `FactCheckResult` type in `lib/types.ts`).
`none` in an `Option` field models JSON `null`. -/
structure FactCheck where
  productName : Option String
  company : Option String
  keyNumbers : List String
  measurableFacts : List String
  category : Option String
  briefContext : Option String
  truthScore : Option Int
  report : String
  sources : List SourceLink
deriving Repr, DecidableEq

/-- `z.string().nullable()`: requires the key; accepts a string or `null`. -/
def parseNullableString (path : List String) : Option Json → Except (List ZIssue) (Option String)
  | none => .error [⟨path, "Required"⟩]
  | some .null => .ok none
  | some (.str s) => .ok (some s)
  | some _ => .error [⟨path, "Expected string or null"⟩]

/-- `z.string()`: requires the key and a string value. -/
def parseRequiredString (path : List String) : Option Json → Except (List ZIssue) String
  | none => .error [⟨path, "Required"⟩]
  | some (.str s) => .ok s
  | some _ => .error [⟨path, "Expected string"⟩]

/-- Elements of `z.array(z.string())`, collecting issues across all
elements with their indices in the path. -/
def parseStringItems (path : List String) (i : Nat) : List Json → Except (List ZIssue) (List String)
  | [] => .ok []
  | x :: rest =>
    zapp (zapp (.ok List.cons) (parseRequiredString (path ++ [toString i]) (some x)))
      (parseStringItems path (i + 1) rest)

/-- `z.array(z.string()).default([])`: an absent key yields the default
empty list; a present value must be an array of strings. -/
def parseStringArrayD (path : List String) : Option Json → Except (List ZIssue) (List String)
  | none => .ok []
  | some (.arr xs) => parseStringItems path 0 xs
  | some _ => .error [⟨path, "Expected array"⟩]

/-- The issues Zod reports for a number failing the `.int().min(0).max(100)`
checks; Zod runs every check and records each failure. -/
def truthScoreIssues (path : List String) (q : Rat) : List ZIssue :=
  (if q.den = 1 then [] else [⟨path, "Expected integer, received float"⟩]) ++
  (if 0 ≤ q then [] else [⟨path, "Number must be greater than or equal to 0"⟩]) ++
  (if q ≤ 100 then [] else [⟨path, "Number must be less than or equal to 100"⟩])

/-- `z.number().int().min(0).max(100).nullable()`: requires the key;
accepts `null`, or an integer between 0 and 100. -/
def parseTruthScore (path : List String) : Option Json → Except (List ZIssue) (Option Int)
  | none => .error [⟨path, "Required"⟩]
  | some .null => .ok none
  | some (.num q) =>
    if q.den = 1 ∧ 0 ≤ q ∧ q ≤ 100 then .ok (some q.num)
    else .error (truthScoreIssues path q)
  | some _ => .error [⟨path, "Expected number"⟩]

/-- Tail of a URL scheme: scheme characters until the mandatory colon. -/
def schemeTail : List Char → Bool
  | [] => false
  | c :: rest =>
    if c = ':' then true
    else (c.isAlphanum || c == '+' || c == '-' || c == '.') && schemeTail rest

/-- Models success of the WHATWG `new URL(s)` constructor that backs
Zod's `.url()` check: an absolute URL, i.e. an ASCII-letter-led scheme
followed by a colon.  This abstracts the rest of the WHATWG parser,
which no claim exercises beyond well-formed versus junk strings. -/
def isValidURL (s : String) : Bool :=
  match s.toList with
  | [] => false
  | c :: rest => c.isAlpha && schemeTail rest

/-- `z.string().nullable().optional()` (the `title` field): an absent key
is accepted as absent; otherwise a string or `null`. -/
def parseOptNullableString (path : List String) : Option Json → Except (List ZIssue) (Option (Option String))
  | none => .ok none
  | some .null => .ok (some none)
  | some (.str s) => .ok (some (some s))
  | some _ => .error [⟨path, "Expected string or null"⟩]

/-- `z.string().url()` (the `url` field). -/
def parseUrlString (path : List String) : Option Json → Except (List ZIssue) String
  | none => .error [⟨path, "Required"⟩]
  | some (.str s) => if isValidURL s then .ok s else .error [⟨path, "Invalid url"⟩]
  | some _ => .error [⟨path, "Expected string"⟩]

/-- `sourceZ = z.object({ title: ..., url: ... })`. -/
def parseSource (path : List String) : Json → Except (List ZIssue) SourceLink
  | .obj kvs =>
    zapp (zapp (.ok SourceLink.mk) (parseOptNullableString (path ++ ["title"]) (lookupKey kvs "title")))
      (parseUrlString (path ++ ["url"]) (lookupKey kvs "url"))
  | _ => .error [⟨path, "Expected object"⟩]

/-- Elements of `z.array(sourceZ)`, collecting issues across elements. -/
def parseSourceItems (path : List String) (i : Nat) : List Json → Except (List ZIssue) (List SourceLink)
  | [] => .ok []
  | x :: rest =>
    zapp (zapp (.ok List.cons) (parseSource (path ++ [toString i]) x))
      (parseSourceItems path (i + 1) rest)

/-- `z.array(sourceZ).default([])`. -/
def parseSourcesD (path : List String) : Option Json → Except (List ZIssue) (List SourceLink)
  | none => .ok []
  | some (.arr xs) => parseSourceItems path 0 xs
  | some _ => .error [⟨path, "Expected array"⟩]

/-- `productName` field of `factCheckZ` applied to an object's fields. -/
def parseProductNameF (kvs : List (String × Json)) : Except (List ZIssue) (Option String) :=
  parseNullableString ["productName"] (lookupKey kvs "productName")

/-- `company` field of `factCheckZ`. -/
def parseCompanyF (kvs : List (String × Json)) : Except (List ZIssue) (Option String) :=
  parseNullableString ["company"] (lookupKey kvs "company")

/-- `keyNumbers` field of `factCheckZ`. -/
def parseKeyNumbersF (kvs : List (String × Json)) : Except (List ZIssue) (List String) :=
  parseStringArrayD ["keyNumbers"] (lookupKey kvs "keyNumbers")

/-- `measurableFacts` field of `factCheckZ`. -/
def parseMeasurableFactsF (kvs : List (String × Json)) : Except (List ZIssue) (List String) :=
  parseStringArrayD ["measurableFacts"] (lookupKey kvs "measurableFacts")

/-- `category` field of `factCheckZ`. -/
def parseCategoryF (kvs : List (String × Json)) : Except (List ZIssue) (Option String) :=
  parseNullableString ["category"] (lookupKey kvs "category")

/-- `briefContext` field of `factCheckZ`. -/
def parseBriefContextF (kvs : List (String × Json)) : Except (List ZIssue) (Option String) :=
  parseNullableString ["briefContext"] (lookupKey kvs "briefContext")

/-- `truthScore` field of `factCheckZ`. -/
def parseTruthScoreF (kvs : List (String × Json)) : Except (List ZIssue) (Option Int) :=
  parseTruthScore ["truthScore"] (lookupKey kvs "truthScore")

/-- `report` field of `factCheckZ`. -/
def parseReportF (kvs : List (String × Json)) : Except (List ZIssue) String :=
  parseRequiredString ["report"] (lookupKey kvs "report")

/-- `sources` field of `factCheckZ`. -/
def parseSourcesF (kvs : List (String × Json)) : Except (List ZIssue) (List SourceLink) :=
  parseSourcesD ["sources"] (lookupKey kvs "sources")

/-- `factCheckZ.parse` on a JSON candidate: `z.object({...})` with the
nine fields in declaration order, Zod's strip mode (unknown keys are
ignored), and issue collection across all fields. -/
def factCheckZ_parse (v : Json) : Except (List ZIssue) FactCheck :=
  match v with
  | .obj kvs =>
    zapp (zapp (zapp (zapp (zapp (zapp (zapp (zapp (zapp
      (.ok FactCheck.mk)
      (parseProductNameF kvs)) (parseCompanyF kvs)) (parseKeyNumbersF kvs)) (parseMeasurableFactsF kvs))
      (parseCategoryF kvs)) (parseBriefContextF kvs)) (parseTruthScoreF kvs)) (parseReportF kvs))
      (parseSourcesF kvs)
  | _ => .error [⟨[], "Expected object"⟩]

/-- Serialize a nullable string the way `JSON.stringify` does. -/
def jsonOfNullableStr : Option String → Json
  | none => .null
  | some s => .str s

/-- Serialize a validated `truthScore`. -/
def jsonOfTruthScore : Option Int → Json
  | none => .null
  | some n => .num (n : Rat)

/-- JSON serialization of a validated source link; an absent `title`
key stays absent (Zod omits it, and `JSON.stringify` drops `undefined`). -/
def SourceLink.toJson (l : SourceLink) : Json :=
  .obj ((match l.title with
    | none => []
    | some t => [("title", jsonOfNullableStr t)]) ++ [("url", .str l.url)])

/-- The key/value fields of the JSON serialization of a validated result. -/
def FactCheck.toJsonFields (r : FactCheck) : List (String × Json) :=
  [ ("productName", jsonOfNullableStr r.productName)
  , ("company", jsonOfNullableStr r.company)
  , ("keyNumbers", .arr (r.keyNumbers.map .str))
  , ("measurableFacts", .arr (r.measurableFacts.map .str))
  , ("category", jsonOfNullableStr r.category)
  , ("briefContext", jsonOfNullableStr r.briefContext)
  , ("truthScore", jsonOfTruthScore r.truthScore)
  , ("report", .str r.report)
  , ("sources", .arr (r.sources.map SourceLink.toJson)) ]

/-- JSON serialization of a validated result (`NextResponse.json(validated)`). -/
def FactCheck.toJson (r : FactCheck) : Json :=
  .obj r.toJsonFields

/-- The nine keys of the `factCheckZ` object schema. -/
def schemaKeys : List String :=
  ["productName", "company", "keyNumbers", "measurableFacts",
   "category", "briefContext", "truthScore", "report", "sources"]

/-- Top-level keys of a JSON object. -/
def topKeys : Json → List String
  | .obj kvs => kvs.map Prod.fst
  | _ => []

/-- All field validators of `factCheckZ` except `sources` succeed on
the candidate's fields. -/
def restFieldsOk (kvs : List (String × Json)) : Bool :=
  isOkE (parseProductNameF kvs) && isOkE (parseCompanyF kvs) &&
  isOkE (parseKeyNumbersF kvs) && isOkE (parseMeasurableFactsF kvs) &&
  isOkE (parseCategoryF kvs) && isOkE (parseBriefContextF kvs) &&
  isOkE (parseTruthScoreF kvs) && isOkE (parseReportF kvs)

/-- All nine field validators of `factCheckZ` succeed on the
candidate's fields. -/
def allFieldsOk (kvs : List (String × Json)) : Bool :=
  restFieldsOk kvs && isOkE (parseSourcesF kvs)

/-- `const { image } = await req.json()`: destructuring the parsed
request body.  Destructuring `null` throws a `TypeError` (caught by the
route's `catch`); any other value yields its `image` property, which is
absent (`undefined`) for non-objects. -/
def extractImage : Json → Except String (Option Json)
  | .null => .error "Cannot destructure property of null"
  | .obj kvs => .ok (lookupKey kvs "image")
  | _ => .ok none

/-- `!image || typeof image !== "string" || !image.startsWith("data:image")`:
the route's input rejection test.  `none` models `undefined`; an empty
string is falsy in JS and also rejected. -/
def imageInvalid : Option Json → Bool
  | some (.str s) => s.toList.isEmpty || !strStartsWith s "data:image"
  | _ => true

/-- The 400 response message of the route. -/
def invalidImageMessage : String :=
  "Invalid image. Send a data URL (base64) captured from camera or upload."

/-- `err?.message || "Unexpected server error"`: a missing or empty
(falsy) message falls back to the generic one. -/
def messageOrDefault : Option String → String
  | none => "Unexpected server error"
  | some m => if m.toList.isEmpty then "Unexpected server error" else m

/-- What the external inference call followed by `JSON.parse` of its
`output_text` produced: the call threw, or `JSON.parse` threw, or a
parsed JSON document.  The carried `Option String` is the thrown
error's message (`none` when it has no message). -/
inductive UpstreamResult where
  | callThrew (msg : Option String)
  | parseThrew (msg : Option String)
  | parsed (doc : Json)

/-- `err.flatten()` on a `ZodError`, as the route returns it in the 422
body: each issue contributes its top-level field (the head of its path;
the empty string for a path-less root issue, Zod's `formErrors`) paired
with its message. -/
def flattenIssues (issues : List ZIssue) : List (String × String) :=
  issues.map fun i => (i.path.headD "", i.message)

/-- The possible response bodies of the analyze route, by constructor:
the validated result (200), invalid input (400), validation failure
(422), internal error (500). -/
inductive ApiResponse where
  | okResult (result : FactCheck)
  | badRequest (message : String)
  | unprocessable (fieldErrors : List (String × String))
  | serverError (message : String)
deriving Repr, DecidableEq

/-- The HTTP status attached to each response shape in the route. -/
def ApiResponse.status : ApiResponse → Nat
  | .okResult _ => 200
  | .badRequest _ => 400
  | .unprocessable _ => 422
  | .serverError _ => 500

/-- The route's outcome: its response, plus whether the external
inference call was performed. -/
structure HandlerOutcome where
  response : ApiResponse
  calledModel : Bool
deriving Repr, DecidableEq

/-- The `POST` handler of `app/api/analyze/route.ts`, over the parsed
request body and the abstracted upstream outcome: destructure `image`,
reject invalid input with 400 before any external call, then map the
upstream outcome through `JSON.parse` / `factCheckZ.parse` into the
200 / 422 / 500 responses of the route's try/catch. -/
def POST (reqBody : Json) (upstream : UpstreamResult) : HandlerOutcome :=
  match extractImage reqBody with
  | .error m => ⟨.serverError (messageOrDefault (some m)), false⟩
  | .ok img =>
    if imageInvalid img then ⟨.badRequest invalidImageMessage, false⟩
    else
      match upstream with
      | .callThrew msg => ⟨.serverError (messageOrDefault msg), true⟩
      | .parseThrew msg => ⟨.serverError (messageOrDefault msg), true⟩
      | .parsed doc =>
        match factCheckZ_parse doc with
        | .error issues => ⟨.unprocessable (flattenIssues issues), true⟩
        | .ok r => ⟨.okResult r, true⟩

/-- The minimal valid candidate from the repository's schema tests:
all nullable fields `null`, empty arrays, the fallback report. -/
def minimalFields : List (String × Json) :=
  [ ("productName", .null), ("company", .null), ("keyNumbers", .arr []),
    ("measurableFacts", .arr []), ("category", .null), ("briefContext", .null),
    ("truthScore", .null), ("report", .str "Insufficient information to verify."),
    ("sources", .arr []) ]

/-- The validated form of `minimalFields`. -/
def minimalResult : FactCheck :=
  ⟨none, none, [], [], none, none, none, "Insufficient information to verify.", []⟩

/-- `minimalFields` with the `sources` key removed entirely. -/
def noSourcesFields : List (String × Json) :=
  [ ("productName", .null), ("company", .null), ("keyNumbers", .arr []),
    ("measurableFacts", .arr []), ("category", .null), ("briefContext", .null),
    ("truthScore", .null), ("report", .str "Insufficient information to verify.") ]

/-- `minimalFields` with the `report` key removed entirely. -/
def noReportFields : List (String × Json) :=
  [ ("productName", .null), ("company", .null), ("keyNumbers", .arr []),
    ("measurableFacts", .arr []), ("category", .null), ("briefContext", .null),
    ("truthScore", .null), ("sources", .arr []) ]

/-- `minimalFields` with the `keyNumbers` and `measurableFacts` keys
removed entirely. -/
def noArraysFields : List (String × Json) :=
  [ ("productName", .null), ("company", .null), ("category", .null),
    ("briefContext", .null), ("truthScore", .null),
    ("report", .str "Insufficient information to verify."), ("sources", .arr []) ]

/-- `minimalFields` with an out-of-range `truthScore` of 120, as in the
repository's schema test for rejection. -/
def badScoreFields : List (String × Json) :=
  [ ("productName", .str "X"), ("company", .str "Y"), ("keyNumbers", .arr []),
    ("measurableFacts", .arr []), ("category", .null), ("briefContext", .null),
    ("truthScore", .num 120), ("report", .str "x"), ("sources", .arr []) ]

/-- The full valid candidate from the repository's schema tests. -/
def validFields : List (String × Json) :=
  [ ("productName", .str "TurboBattery X"), ("company", .str "PowerCorp"),
    ("keyNumbers", .arr [.str "3x longer", .str "5000mAh"]),
    ("measurableFacts", .arr [.str "Battery capacity: 5000mAh", .str "Fast charge: 45W"]),
    ("category", .str "tech spec"), ("briefContext", .str "Smartphone battery endurance claim."),
    ("truthScore", .num 72),
    ("report", .str "Independent tests show above-average endurance."),
    ("sources", .arr [ .obj [("title", .str "PowerCorp specs"), ("url", .str "https://example.com/specs")],
                       .obj [("title", .str "Lab review"), ("url", .str "https://example.com/review")] ]) ]

/-- The validated form of `validFields`. -/
def validResult : FactCheck :=
  ⟨some "TurboBattery X", some "PowerCorp", ["3x longer", "5000mAh"],
   ["Battery capacity: 5000mAh", "Fast charge: 45W"], some "tech spec",
   some "Smartphone battery endurance claim.", some 72,
   "Independent tests show above-average endurance.",
   [⟨some (some "PowerCorp specs"), "https://example.com/specs"⟩,
    ⟨some (some "Lab review"), "https://example.com/review"⟩]⟩

/-- A request body whose `image` is a plain filename, not a data URL. -/
def fileNameBody : Json := .obj [("image", .str "photo.png")]

/-- A request body carrying a well-formed image data URL. -/
def dataUrlBody : Json := .obj [("image", .str "data:image/webp;base64,AAAA")]

section Lemmas

/-- A failed applicative step propagates, appending the issues of the
second argument. -/
@[simp] theorem zapp_error_left {α β : Type} (e : List ZIssue)
    (x : Except (List ZIssue) α) :
    zapp (β := β) (.error e) x = .error (e ++ issuesOf x) := rfl

/-- Two successful steps combine by application. -/
@[simp] theorem zapp_ok_ok {α β : Type} (g : α → β) (a : α) :
    zapp (.ok g) (.ok a) = .ok (g a) := rfl

/-- A successful function step keeps the argument's issues. -/
@[simp] theorem zapp_ok_error {α β : Type} (g : α → β) (e : List ZIssue) :
    zapp (.ok g) (.error e) = .error e := rfl

/-- The issues of a combined step are the concatenation of the issues of
its parts. -/
theorem issuesOf_zapp {α β : Type} (f : Except (List ZIssue) (α → β))
    (x : Except (List ZIssue) α) :
    issuesOf (zapp f x) = issuesOf f ++ issuesOf x := by
  cases f <;> cases x <;> rfl

/-- An errored outcome's issues are the carried list. -/
theorem issuesOf_eq_of_error {α : Type} {e : Except (List ZIssue) α}
    {l : List ZIssue} (h : e = .error l) : issuesOf e = l := by
  rw [h]; rfl

/-- Lookup skips a leading pair with a different key. -/
theorem lookupKey_cons_ne {k key : String} (v : Json)
    (kvs : List (String × Json)) (h : k ≠ key) :
    lookupKey ((k, v) :: kvs) key = lookupKey kvs key := by
  simp only [lookupKey]
  cases lookupKey kvs key <;> simp [h]

/-- `factCheckZ.parse` succeeds on an object exactly when each of the
nine field parsers succeeds with the corresponding field of the result. -/
theorem factCheckZ_parse_obj_ok_iff (kvs : List (String × Json)) (r : FactCheck) :
    factCheckZ_parse (.obj kvs) = .ok r ↔
      parseProductNameF kvs = .ok r.productName ∧
      parseCompanyF kvs = .ok r.company ∧
      parseKeyNumbersF kvs = .ok r.keyNumbers ∧
      parseMeasurableFactsF kvs = .ok r.measurableFacts ∧
      parseCategoryF kvs = .ok r.category ∧
      parseBriefContextF kvs = .ok r.briefContext ∧
      parseTruthScoreF kvs = .ok r.truthScore ∧
      parseReportF kvs = .ok r.report ∧
      parseSourcesF kvs = .ok r.sources := by
  constructor
  · intro h
    simp only [factCheckZ_parse] at h
    rcases h1 : parseProductNameF kvs with e1 | a1
    · rw [h1] at h; simp at h
    rw [h1] at h
    rcases h2 : parseCompanyF kvs with e2 | a2
    · rw [h2] at h; simp at h
    rw [h2] at h
    rcases h3 : parseKeyNumbersF kvs with e3 | a3
    · rw [h3] at h; simp at h
    rw [h3] at h
    rcases h4 : parseMeasurableFactsF kvs with e4 | a4
    · rw [h4] at h; simp at h
    rw [h4] at h
    rcases h5 : parseCategoryF kvs with e5 | a5
    · rw [h5] at h; simp at h
    rw [h5] at h
    rcases h6 : parseBriefContextF kvs with e6 | a6
    · rw [h6] at h; simp at h
    rw [h6] at h
    rcases h7 : parseTruthScoreF kvs with e7 | a7
    · rw [h7] at h; simp at h
    rw [h7] at h
    rcases h8 : parseReportF kvs with e8 | a8
    · rw [h8] at h; simp at h
    rw [h8] at h
    rcases h9 : parseSourcesF kvs with e9 | a9
    · rw [h9] at h; simp at h
    rw [h9] at h
    simp only [zapp_ok_ok, Except.ok.injEq] at h
    subst h
    exact ⟨rfl, rfl, rfl, rfl, rfl, rfl, rfl, rfl, rfl⟩
  · rintro ⟨h1, h2, h3, h4, h5, h6, h7, h8, h9⟩
    simp [factCheckZ_parse, h1, h2, h3, h4, h5, h6, h7, h8, h9]

/-- Serializing a validated nullable string re-validates to itself. -/
theorem parseNullableString_serialized (p : List String) (t : Option String) :
    parseNullableString p (some (jsonOfNullableStr t)) = .ok t := by
  cases t <;> rfl

/-- A serialized string list re-validates to itself elementwise. -/
theorem parseStringItems_map_str (p : List String) (xs : List String) :
    ∀ i, parseStringItems p i (xs.map .str) = .ok xs := by
  induction xs with
  | nil => intro i; rfl
  | cons x rest ih =>
    intro i
    simp only [List.map_cons, parseStringItems, parseRequiredString, ih (i + 1),
      zapp_ok_ok]

/-- A serialized string array re-validates to itself. -/
theorem parseStringArrayD_serialized (p : List String) (xs : List String) :
    parseStringArrayD p (some (.arr (xs.map .str))) = .ok xs := by
  simp only [parseStringArrayD, parseStringItems_map_str]

/-- Inversion of a successful `truthScore` validation: the value was
`null`, or an integer between 0 and 100 (so the validated score is
bounded and its serialization is exact). -/
theorem parseTruthScore_ok_inv (p : List String) (v : Json) (t : Option Int)
    (h : parseTruthScore p (some v) = .ok t) :
    (v = .null ∧ t = none) ∨
      ∃ n : Int, v = .num (n : Rat) ∧ t = some n ∧ 0 ≤ n ∧ n ≤ 100 := by
  cases v with
  | null =>
    left
    simp only [parseTruthScore, Except.ok.injEq] at h
    exact ⟨rfl, h.symm⟩
  | num q =>
    right
    simp only [parseTruthScore] at h
    split at h
    · rename_i hc
      obtain ⟨hden, h0, h100⟩ := hc
      have hq : (q.num : Rat) = q := (Rat.den_eq_one_iff q).mp hden
      simp only [Except.ok.injEq] at h
      refine ⟨q.num, by rw [hq], h.symm, Rat.num_nonneg.mpr h0, ?_⟩
      have : (q.num : Rat) ≤ ((100 : Int) : Rat) := by
        rw [hq]; exact_mod_cast h100
      exact_mod_cast this
    · exact absurd h (by simp)
  | bool b => exact absurd h (by simp [parseTruthScore])
  | str s => exact absurd h (by simp [parseTruthScore])
  | arr xs => exact absurd h (by simp [parseTruthScore])
  | obj kvs => exact absurd h (by simp [parseTruthScore])

/-- An integer between 0 and 100 validates as a `truthScore`. -/
theorem parseTruthScore_intCast (p : List String) (n : Int)
    (h0 : 0 ≤ n) (h1 : n ≤ 100) :
    parseTruthScore p (some (.num (n : Rat))) = .ok (some n) := by
  simp only [parseTruthScore]
  rw [if_pos]
  · simp
  · refine ⟨Rat.den_intCast n, by exact_mod_cast h0, ?_⟩
    have : ((n : Int) : Rat) ≤ ((100 : Int) : Rat) := by exact_mod_cast h1
    simpa using this

/-- Serializing a validated `truthScore` re-validates to itself. -/
theorem parseTruthScore_rt (p₁ p₂ : List String) (o : Option Json)
    (t : Option Int) (h : parseTruthScore p₁ o = .ok t) :
    parseTruthScore p₂ (some (jsonOfTruthScore t)) = .ok t := by
  cases o with
  | none => exact absurd h (by simp [parseTruthScore])
  | some v =>
    rcases parseTruthScore_ok_inv p₁ v t h with ⟨_, ht⟩ | ⟨n, _, ht, h0, h100⟩
    · subst ht; rfl
    · subst ht
      exact parseTruthScore_intCast p₂ n h0 h100

/-- Inversion of a successful `url` validation: the value was a string
passing the URL check. -/
theorem parseUrlString_ok_inv (p : List String) (o : Option Json) (u : String)
    (h : parseUrlString p o = .ok u) :
    o = some (.str u) ∧ isValidURL u = true := by
  cases o with
  | none => exact absurd h (by simp [parseUrlString])
  | some v =>
    cases v with
    | str s =>
      simp only [parseUrlString] at h
      split at h
      · rename_i hv
        simp only [Except.ok.injEq] at h
        subst h
        exact ⟨rfl, hv⟩
      · exact absurd h (by simp)
    | null => exact absurd h (by simp [parseUrlString])
    | bool b => exact absurd h (by simp [parseUrlString])
    | num q => exact absurd h (by simp [parseUrlString])
    | arr xs => exact absurd h (by simp [parseUrlString])
    | obj kvs => exact absurd h (by simp [parseUrlString])

/-- Serializing a validated source link re-validates to itself. -/
theorem parseSource_rt (p₁ p₂ : List String) (v : Json) (lk : SourceLink)
    (h : parseSource p₁ v = .ok lk) :
    parseSource p₂ lk.toJson = .ok lk := by
  cases v with
  | obj kvs =>
    simp only [parseSource] at h
    rcases hT : parseOptNullableString (p₁ ++ ["title"]) (lookupKey kvs "title")
      with eT | t
    · rw [hT] at h; simp at h
    rw [hT] at h
    rcases hU : parseUrlString (p₁ ++ ["url"]) (lookupKey kvs "url") with eU | u
    · rw [hU] at h; simp at h
    rw [hU] at h
    simp only [zapp_ok_ok, Except.ok.injEq] at h
    subst h
    obtain ⟨-, hvalid⟩ := parseUrlString_ok_inv _ _ _ hU
    cases t with
    | none =>
      simp [parseSource, SourceLink.toJson, lookupKey, parseOptNullableString,
        parseUrlString, hvalid]
    | some tt =>
      cases tt <;>
        simp [parseSource, SourceLink.toJson, lookupKey, parseOptNullableString,
          parseUrlString, jsonOfNullableStr, hvalid]
  | null => exact absurd h (by simp [parseSource])
  | bool b => exact absurd h (by simp [parseSource])
  | num q => exact absurd h (by simp [parseSource])
  | str s => exact absurd h (by simp [parseSource])
  | arr xs => exact absurd h (by simp [parseSource])

/-- Serializing a validated source list re-validates to itself. -/
theorem parseSourceItems_rt (p₁ p₂ : List String) (xs : List Json) :
    ∀ i j ls, parseSourceItems p₁ i xs = .ok ls →
      parseSourceItems p₂ j (ls.map SourceLink.toJson) = .ok ls := by
  induction xs with
  | nil =>
    intro i j ls h
    simp only [parseSourceItems, Except.ok.injEq] at h
    subst h
    rfl
  | cons x rest ih =>
    intro i j ls h
    simp only [parseSourceItems] at h
    rcases hS : parseSource (p₁ ++ [toString i]) x with eS | lk
    · rw [hS] at h; simp at h
    rw [hS] at h
    rcases hR : parseSourceItems p₁ (i + 1) rest with eR | ls'
    · rw [hR] at h; simp at h
    rw [hR] at h
    simp only [zapp_ok_ok, Except.ok.injEq] at h
    subst h
    simp only [List.map_cons, parseSourceItems,
      parseSource_rt _ _ _ _ hS, ih (i + 1) (j + 1) ls' hR, zapp_ok_ok]

/-- Serializing a validated `sources` field re-validates to itself. -/
theorem parseSourcesD_rt (p₁ p₂ : List String) (o : Option Json)
    (ls : List SourceLink) (h : parseSourcesD p₁ o = .ok ls) :
    parseSourcesD p₂ (some (.arr (ls.map SourceLink.toJson))) = .ok ls := by
  cases o with
  | none =>
    simp only [parseSourcesD, Except.ok.injEq] at h
    subst h
    rfl
  | some v =>
    cases v with
    | arr xs =>
      simp only [parseSourcesD] at h ⊢
      exact parseSourceItems_rt p₁ p₂ xs 0 0 ls h
    | null => exact absurd h (by simp [parseSourcesD])
    | bool b => exact absurd h (by simp [parseSourcesD])
    | num q => exact absurd h (by simp [parseSourcesD])
    | str s => exact absurd h (by simp [parseSourcesD])
    | obj kvs => exact absurd h (by simp [parseSourcesD])

/-- A validation outcome is marked successful exactly when it carries a
value. -/
theorem isOkE_eq_true_iff {α : Type} (e : Except (List ZIssue) α) :
    isOkE e = true ↔ ∃ a, e = .ok a := by
  cases e <;> simp [isOkE]

/-- A leading key outside the schema does not change validation: every
field parser reads only its own key. -/
theorem factCheckZ_parse_cons_unknown (k : String) (v : Json)
    (kvs : List (String × Json)) (hk : k ∉ schemaKeys) :
    factCheckZ_parse (.obj ((k, v) :: kvs)) = factCheckZ_parse (.obj kvs) := by
  simp only [schemaKeys, List.mem_cons, List.not_mem_nil, or_false, not_or] at hk
  obtain ⟨n1, n2, n3, n4, n5, n6, n7, n8, n9⟩ := hk
  simp only [factCheckZ_parse, parseProductNameF, parseCompanyF, parseKeyNumbersF,
    parseMeasurableFactsF, parseCategoryF, parseBriefContextF, parseTruthScoreF,
    parseReportF, parseSourcesF,
    lookupKey_cons_ne v kvs n1, lookupKey_cons_ne v kvs n2, lookupKey_cons_ne v kvs n3,
    lookupKey_cons_ne v kvs n4, lookupKey_cons_ne v kvs n5, lookupKey_cons_ne v kvs n6,
    lookupKey_cons_ne v kvs n7, lookupKey_cons_ne v kvs n8, lookupKey_cons_ne v kvs n9]

/-- Prepending any number of non-schema keys does not change validation. -/
theorem factCheckZ_parse_append_unknown (extras kvs : List (String × Json))
    (hex : ∀ p ∈ extras, p.1 ∉ schemaKeys) :
    factCheckZ_parse (.obj (extras ++ kvs)) = factCheckZ_parse (.obj kvs) := by
  induction extras with
  | nil => rfl
  | cons p ps ih =>
    rcases p with ⟨k, v⟩
    rw [List.cons_append,
      factCheckZ_parse_cons_unknown k v (ps ++ kvs) (hex (k, v) (List.mem_cons_self _ _)),
      ih (fun q hq => hex q (List.mem_cons_of_mem _ hq))]

end Lemmas

section Claims

/-- C1: for every request whose `image` field is missing, not a string,
or a string not beginning with the image data-URL prefix, the analyze
handler returns the invalid-input error (HTTP 400) with the message
"Invalid image. Send a data URL (base64) captured from camera or
upload." and never performs the external inference call. -/
theorem invalid_image_rejected_before_call (body : Json) (img : Option Json)
    (upstream : UpstreamResult)
    (hex : extractImage body = .ok img)
    (hbad : imageInvalid img = true) :
    POST body upstream = ⟨.badRequest invalidImageMessage, false⟩ ∧
      (POST body upstream).response.status = 400 := by
  have h : POST body upstream = ⟨.badRequest invalidImageMessage, false⟩ := by
    simp [POST, hex, hbad]
  exact ⟨h, by rw [h]; rfl⟩

/-- Witness for C1: an `image` that is a plain filename gets the 400
response and the model is never called. -/
theorem invalid_image_rejected_before_call_witness :
    extractImage fileNameBody = .ok (some (.str "photo.png")) ∧
    imageInvalid (some (.str "photo.png")) = true ∧
    (POST fileNameBody (.callThrew none) = ⟨.badRequest invalidImageMessage, false⟩ ∧
      (POST fileNameBody (.callThrew none)).response.status = 400) :=
  ⟨rfl, rfl, invalid_image_rejected_before_call fileNameBody _ _ rfl rfl⟩

/-- C2: a present, non-null `truthScore` that is not an integer in
[0, 100] makes the validator reject the candidate (no clamping: no
validated result is produced at all). -/
theorem out_of_range_truthScore_rejected (kvs : List (String × Json)) (v : Json)
    (hv : lookupKey kvs "truthScore" = some v) (hnn : v ≠ .null)
    (hni : ∀ n : Int, 0 ≤ n → n ≤ 100 → v ≠ .num (n : Rat)) :
    ∀ r : FactCheck, factCheckZ_parse (.obj kvs) ≠ .ok r := by
  intro r hok
  rw [factCheckZ_parse_obj_ok_iff] at hok
  have h7 := hok.2.2.2.2.2.2.1
  rw [parseTruthScoreF, hv] at h7
  rcases parseTruthScore_ok_inv _ _ _ h7 with ⟨hn, -⟩ | ⟨n, hn, -, h0, h100⟩
  · exact hnn hn
  · exact hni n h0 h100 hn

/-- Witness for C2 at the repository test's candidate with
`truthScore: 120`: the validator rejects it. -/
theorem out_of_range_truthScore_rejected_witness :
    lookupKey badScoreFields "truthScore" = some (.num 120) ∧
    ∀ r : FactCheck, factCheckZ_parse (.obj badScoreFields) ≠ .ok r :=
  ⟨rfl, out_of_range_truthScore_rejected badScoreFields (.num 120) rfl
    (fun h => Json.noConfusion h)
    (fun n _ h100 hEq => by
      injection hEq with hq
      have hn : (120 : Int) = n := by exact_mod_cast hq
      omega)⟩

/-- C3: when validation of the parsed upstream document fails, the
handler answers 422 with the flattened field-error list of the
collected issues, and on an object candidate those issues are exactly
the concatenation of every field's issues — every failing field is
described, not only the first. -/
theorem validation_failure_flattened (body : Json) (img : Option Json)
    (doc : Json) (issues : List ZIssue)
    (hex : extractImage body = .ok img)
    (hok : imageInvalid img = false)
    (hv : factCheckZ_parse doc = .error issues) :
    POST body (.parsed doc) = ⟨.unprocessable (flattenIssues issues), true⟩ ∧
      ∀ kvs, doc = .obj kvs →
        issues =
          issuesOf (parseProductNameF kvs) ++ issuesOf (parseCompanyF kvs) ++
          issuesOf (parseKeyNumbersF kvs) ++ issuesOf (parseMeasurableFactsF kvs) ++
          issuesOf (parseCategoryF kvs) ++ issuesOf (parseBriefContextF kvs) ++
          issuesOf (parseTruthScoreF kvs) ++ issuesOf (parseReportF kvs) ++
          issuesOf (parseSourcesF kvs) := by
  constructor
  · simp [POST, hex, hok, hv]
  · intro kvs hd
    subst hd
    have hi : issuesOf (factCheckZ_parse (.obj kvs)) = issues :=
      issuesOf_eq_of_error hv
    rw [← hi]
    simp only [factCheckZ_parse, issuesOf_zapp]
    simp [issuesOf]

/-- Witness for C3: with a well-formed image and an empty-object
upstream document, the handler answers 422 listing every missing
required field. -/
theorem validation_failure_flattened_witness :
    extractImage dataUrlBody = .ok (some (.str "data:image/webp;base64,AAAA")) ∧
    imageInvalid (some (.str "data:image/webp;base64,AAAA")) = false ∧
    factCheckZ_parse (.obj []) = .error
      [⟨["productName"], "Required"⟩, ⟨["company"], "Required"⟩,
       ⟨["category"], "Required"⟩, ⟨["briefContext"], "Required"⟩,
       ⟨["truthScore"], "Required"⟩, ⟨["report"], "Required"⟩] ∧
    POST dataUrlBody (.parsed (.obj [])) =
      ⟨.unprocessable
        [("productName", "Required"), ("company", "Required"),
         ("category", "Required"), ("briefContext", "Required"),
         ("truthScore", "Required"), ("report", "Required")], true⟩ :=
  ⟨rfl, rfl, rfl,
    (validation_failure_flattened dataUrlBody _ (.obj []) _ rfl rfl rfl).1⟩

/-- C4: with a well-formed image input, an upstream body that is not
parseable as JSON yields the internal-error outcome — HTTP 500 with the
generic "Unexpected server error" unless the parse error carries a
message — and never any `FactCheckResult`. -/
theorem parse_failure_internal_error (body : Json) (img : Option Json)
    (msg : Option String)
    (hex : extractImage body = .ok img)
    (hok : imageInvalid img = false) :
    POST body (.parseThrew msg) = ⟨.serverError (messageOrDefault msg), true⟩ ∧
      ∀ r : FactCheck, (POST body (.parseThrew msg)).response ≠ .okResult r := by
  have h : POST body (.parseThrew msg) =
      ⟨.serverError (messageOrDefault msg), true⟩ := by
    simp [POST, hex, hok]
  refine ⟨h, fun r hr => ?_⟩
  rw [h] at hr
  exact ApiResponse.noConfusion hr

/-- Witness for C4: a well-formed image with a message-less JSON parse
failure yields the generic 500 response. -/
theorem parse_failure_internal_error_witness :
    extractImage dataUrlBody = .ok (some (.str "data:image/webp;base64,AAAA")) ∧
    imageInvalid (some (.str "data:image/webp;base64,AAAA")) = false ∧
    POST dataUrlBody (.parseThrew none) =
      ⟨.serverError "Unexpected server error", true⟩ :=
  ⟨rfl, rfl, (parse_failure_internal_error dataUrlBody _ none rfl rfl).1⟩

/-- C5: validation is idempotent — for every candidate the validator
accepts, serializing the validated result back to JSON and validating
again succeeds with the identical structure. -/
theorem factCheckZ_roundtrip (c : Json) (r : FactCheck)
    (h : factCheckZ_parse c = .ok r) :
    factCheckZ_parse r.toJson = .ok r := by
  cases c with
  | obj kvs =>
    rw [factCheckZ_parse_obj_ok_iff] at h
    obtain ⟨h1, h2, h3, h4, h5, h6, h7, h8, h9⟩ := h
    rw [FactCheck.toJson, factCheckZ_parse_obj_ok_iff]
    refine ⟨?_, ?_, ?_, ?_, ?_, ?_, ?_, ?_, ?_⟩
    · exact parseNullableString_serialized _ _
    · exact parseNullableString_serialized _ _
    · exact parseStringArrayD_serialized _ _
    · exact parseStringArrayD_serialized _ _
    · exact parseNullableString_serialized _ _
    · exact parseNullableString_serialized _ _
    · exact parseTruthScore_rt _ _ _ _ h7
    · rfl
    · exact parseSourcesD_rt _ _ _ _ h9
  | null => exact absurd h (by simp [factCheckZ_parse])
  | bool b => exact absurd h (by simp [factCheckZ_parse])
  | num q => exact absurd h (by simp [factCheckZ_parse])
  | str s => exact absurd h (by simp [factCheckZ_parse])
  | arr xs => exact absurd h (by simp [factCheckZ_parse])

/-- Witness for C5 at the repository test's full valid candidate. -/
theorem factCheckZ_roundtrip_witness :
    factCheckZ_parse (.obj validFields) = .ok validResult ∧
    factCheckZ_parse validResult.toJson = .ok validResult :=
  ⟨rfl, factCheckZ_roundtrip (.obj validFields) validResult rfl⟩

/-- C6 counterexample: a candidate that is valid in every other field
but has no `sources` key at all is accepted by the validator (with
`sources` defaulted to the empty array), refuting the claim that such
candidates are rejected. -/
theorem missing_sources_accepted_cex :
    factCheckZ_parse (.obj noSourcesFields) = .ok minimalResult := rfl

/-- C6 amended: the validator does not require the `sources` key — a
candidate whose other eight fields validate and which has no `sources`
key is accepted, with `sources` defaulted to the empty array. -/
theorem missing_sources_defaulted (kvs : List (String × Json))
    (hs : lookupKey kvs "sources" = none)
    (hrest : restFieldsOk kvs = true) :
    ∃ r : FactCheck, factCheckZ_parse (.obj kvs) = .ok r ∧ r.sources = [] := by
  simp only [restFieldsOk, Bool.and_eq_true] at hrest
  obtain ⟨⟨⟨⟨⟨⟨⟨hb1, hb2⟩, hb3⟩, hb4⟩, hb5⟩, hb6⟩, hb7⟩, hb8⟩ := hrest
  obtain ⟨a1, e1⟩ := (isOkE_eq_true_iff _).mp hb1
  obtain ⟨a2, e2⟩ := (isOkE_eq_true_iff _).mp hb2
  obtain ⟨a3, e3⟩ := (isOkE_eq_true_iff _).mp hb3
  obtain ⟨a4, e4⟩ := (isOkE_eq_true_iff _).mp hb4
  obtain ⟨a5, e5⟩ := (isOkE_eq_true_iff _).mp hb5
  obtain ⟨a6, e6⟩ := (isOkE_eq_true_iff _).mp hb6
  obtain ⟨a7, e7⟩ := (isOkE_eq_true_iff _).mp hb7
  obtain ⟨a8, e8⟩ := (isOkE_eq_true_iff _).mp hb8
  refine ⟨⟨a1, a2, a3, a4, a5, a6, a7, a8, []⟩, ?_, rfl⟩
  rw [factCheckZ_parse_obj_ok_iff]
  exact ⟨e1, e2, e3, e4, e5, e6, e7, e8, by rw [parseSourcesF, hs]; rfl⟩

/-- Witness for the amended C6 at the minimal candidate without a
`sources` key. -/
theorem missing_sources_defaulted_witness :
    lookupKey noSourcesFields "sources" = none ∧
    restFieldsOk noSourcesFields = true ∧
    ∃ r : FactCheck, factCheckZ_parse (.obj noSourcesFields) = .ok r ∧
      r.sources = [] :=
  ⟨rfl, rfl, missing_sources_defaulted noSourcesFields rfl rfl⟩

/-- C7: a candidate whose field validations all succeed and which omits
`keyNumbers` or `measurableFacts` is accepted, with each omitted array
field defaulted to the empty sequence in the returned result. -/
theorem omitted_arrays_defaulted (kvs : List (String × Json))
    (hall : allFieldsOk kvs = true) :
    ∃ r : FactCheck, factCheckZ_parse (.obj kvs) = .ok r ∧
      (lookupKey kvs "keyNumbers" = none → r.keyNumbers = []) ∧
      (lookupKey kvs "measurableFacts" = none → r.measurableFacts = []) := by
  simp only [allFieldsOk, restFieldsOk, Bool.and_eq_true] at hall
  obtain ⟨⟨⟨⟨⟨⟨⟨⟨hb1, hb2⟩, hb3⟩, hb4⟩, hb5⟩, hb6⟩, hb7⟩, hb8⟩, hb9⟩ := hall
  obtain ⟨a1, e1⟩ := (isOkE_eq_true_iff _).mp hb1
  obtain ⟨a2, e2⟩ := (isOkE_eq_true_iff _).mp hb2
  obtain ⟨a3, e3⟩ := (isOkE_eq_true_iff _).mp hb3
  obtain ⟨a4, e4⟩ := (isOkE_eq_true_iff _).mp hb4
  obtain ⟨a5, e5⟩ := (isOkE_eq_true_iff _).mp hb5
  obtain ⟨a6, e6⟩ := (isOkE_eq_true_iff _).mp hb6
  obtain ⟨a7, e7⟩ := (isOkE_eq_true_iff _).mp hb7
  obtain ⟨a8, e8⟩ := (isOkE_eq_true_iff _).mp hb8
  obtain ⟨a9, e9⟩ := (isOkE_eq_true_iff _).mp hb9
  refine ⟨⟨a1, a2, a3, a4, a5, a6, a7, a8, a9⟩, ?_, ?_, ?_⟩
  · rw [factCheckZ_parse_obj_ok_iff]
    exact ⟨e1, e2, e3, e4, e5, e6, e7, e8, e9⟩
  · intro hkn
    rw [parseKeyNumbersF, hkn] at e3
    simp only [parseStringArrayD, Except.ok.injEq] at e3
    exact e3.symm
  · intro hmf
    rw [parseMeasurableFactsF, hmf] at e4
    simp only [parseStringArrayD, Except.ok.injEq] at e4
    exact e4.symm

/-- Witness for C7 at the minimal candidate without `keyNumbers` and
`measurableFacts` keys. -/
theorem omitted_arrays_defaulted_witness :
    allFieldsOk noArraysFields = true ∧
    lookupKey noArraysFields "keyNumbers" = none ∧
    lookupKey noArraysFields "measurableFacts" = none ∧
    ∃ r : FactCheck, factCheckZ_parse (.obj noArraysFields) = .ok r ∧
      (lookupKey noArraysFields "keyNumbers" = none → r.keyNumbers = []) ∧
      (lookupKey noArraysFields "measurableFacts" = none → r.measurableFacts = []) :=
  ⟨rfl, rfl, rfl, omitted_arrays_defaulted noArraysFields rfl⟩

/-- C8: a candidate object missing the required `report` field is
rejected by the validator. -/
theorem missing_report_rejected (kvs : List (String × Json))
    (h : lookupKey kvs "report" = none) :
    ∀ r : FactCheck, factCheckZ_parse (.obj kvs) ≠ .ok r := by
  intro r hok
  rw [factCheckZ_parse_obj_ok_iff] at hok
  have h8 := hok.2.2.2.2.2.2.2.1
  rw [parseReportF, h] at h8
  simp [parseRequiredString] at h8

/-- Witness for C8 at the minimal candidate without a `report` key. -/
theorem missing_report_rejected_witness :
    lookupKey noReportFields "report" = none ∧
    ∀ r : FactCheck, factCheckZ_parse (.obj noReportFields) ≠ .ok r :=
  ⟨rfl, missing_report_rejected noReportFields rfl⟩

/-- C9: the minimal valid result — `sources: []`, every nullable field
null, empty `keyNumbers` and `measurableFacts`, and the fallback
report — passes the validator. -/
theorem minimal_valid_result_accepted :
    factCheckZ_parse (.obj minimalFields) = .ok minimalResult := rfl

/-- C10: the validator strips unknown keys instead of refusing them —
extra non-schema fields on an accepted candidate leave validation
successful with the same result, whose serialization carries exactly
the nine schema keys and none of the extras. -/
theorem unknown_keys_stripped (extras kvs : List (String × Json)) (r : FactCheck)
    (hex : ∀ p ∈ extras, p.1 ∉ schemaKeys)
    (h : factCheckZ_parse (.obj kvs) = .ok r) :
    factCheckZ_parse (.obj (extras ++ kvs)) = .ok r ∧
      topKeys r.toJson = schemaKeys :=
  ⟨by rw [factCheckZ_parse_append_unknown extras kvs hex, h], rfl⟩

/-- Witness for C10: two extra keys on the minimal candidate are
ignored and the result keeps only the schema keys. -/
theorem unknown_keys_stripped_witness :
    (∀ p ∈ [("verdict", Json.str "ok"), ("confidence", Json.num 5)],
      p.1 ∉ schemaKeys) ∧
    factCheckZ_parse (.obj minimalFields) = .ok minimalResult ∧
    (factCheckZ_parse
        (.obj ([("verdict", Json.str "ok"), ("confidence", Json.num 5)] ++
          minimalFields)) = .ok minimalResult ∧
      topKeys minimalResult.toJson = schemaKeys) :=
  ⟨by decide, rfl,
    unknown_keys_stripped [("verdict", Json.str "ok"), ("confidence", Json.num 5)]
      minimalFields minimalResult (by decide) rfl⟩

end Claims

end LucidAd
